import Mathlib

/-!
Shallow embedding of the core of the Scheduler repository:
* `src/common/minimodel/group.py` — the AND/OR group tree and its
  construction-time validation,
* `src/scheduler/core/components/ranker/default.py` — the default ranker
  (band parameters, `_metric_slope`, `score_observation`, `_score_and_group`),
* `src/scheduler/core/eventsqueue/event_queue.py` — the per-night event queue
  with its blockage stack.

Python floats are embedded as `ℚ`: every constant appearing in the code and in
the claims (0.8, 1.2, 5, 0.5, ...) is dyadic/decimal and the operations the
claims exercise (comparisons, max, piecewise selection, field arithmetic) are
exact in any ordered field, so no rounding behaviour is lost.  Exceptions are
embedded as `Except String`.  Integer-valued exponents (`power`, `met_power`,
`vis_power`, `wha_power`, whose defaults are 2, 1.0, 1.0, 1.0) are embedded as
`ℕ` exponents.
-/

namespace Scheduler

/-- Sites are opaque identifiers for the group model. -/
abbrev Site := Nat

/-- Modelled from the spec: `Observation` lives in code outside `src/`
(`common/minimodel/observation.py`); the engine treats it as opaque except for
its site (§3: "the engine treats it as opaque except for: site, ...").
Only the site is needed by the group-tree claims. -/
structure ObservationG where
  site : Site
deriving DecidableEq, Repr

/-- The ordering options of an AND group (`AndOption` in `group.py`). -/
inductive AndOption where
  | CONSEC_ORDERED | CONSEC_ANYORDER | NIGHT_ORDERED
  | NIGHT_ANYORDER | ANYORDER | CUSTOM
deriving DecidableEq, Repr

mutual
/-- The group tree of `group.py`: the base `Group` dataclass fields together
with the discriminating subclass (`AndGroup` carries `group_option` and
`previous`; `OrGroup` carries nothing extra). -/
inductive Group where
  | andG (id group_name : String) (number_to_observe : Int)
         (delay_min delay_max : ℚ) (children : Children)
         (group_option : AndOption) (previous : Option Int) : Group
  | orG (id group_name : String) (number_to_observe : Int)
        (delay_min delay_max : ℚ) (children : Children) : Group

/-- The dual-typed `children: Union[List[Group], Observation]` field. -/
inductive Children where
  | obs (o : ObservationG) : Children
  | groups (gs : List Group) : Children
end

namespace Group

/-- The `id` field of a group (`unique_id` as used by the ranker). -/
def gid : Group → String
  | .andG i _ _ _ _ _ _ _ => i
  | .orG i _ _ _ _ _ => i

/-- The `children` field of a group. -/
def childrenOf : Group → Children
  | .andG _ _ _ _ _ c _ _ => c
  | .orG _ _ _ _ _ c => c

/-- The `number_to_observe` field of a group. -/
def numberToObserve : Group → Int
  | .andG _ _ n _ _ _ _ _ => n
  | .orG _ _ n _ _ _ => n

end Group

/-- `len(self.children)` as used by the `__post_init__` validators.
Modelled from the spec for the `Observation` case: `Observation.__len__` lives
outside `src/`, and §3 says a trivial AndGroup "wraps exactly one Observation
as its sole child" and is valid with `number_to_observe = 1`, so an observation
child counts as length 1. -/
def Children.len : Children → Nat
  | .obs _ => 1
  | .groups gs => gs.length

mutual
/-- `Group.sites` of `group.py`: the single site for an observation group,
otherwise `frozenset.union(*[s.sites() for s in self.children])`.  The union
call with an empty children sequence raises in Python, embedded as `none`;
a child whose own `sites()` raises propagates the failure. -/
def Group.sites : Group → Option (Finset Site)
  | .andG _ _ _ _ _ c _ _ => Children.sitesC c
  | .orG _ _ _ _ _ c => Children.sitesC c

def Children.sitesC : Children → Option (Finset Site)
  | .obs o => some {o.site}
  | .groups [] => none
  | .groups (g :: gs) => do
      let s ← Group.sites g
      let rest ← Group.sitesL gs
      return s ∪ rest

def Group.sitesL : List Group → Option (Finset Site)
  | [] => some ∅
  | g :: gs => do
      let s ← Group.sites g
      let rest ← Group.sitesL gs
      return s ∪ rest
end

/-- `Group.__post_init__`: fails iff `number_to_observe <= 0`. -/
def groupPostInit (group_name : String) (number_to_observe : Int) :
    Except String Unit :=
  if number_to_observe ≤ 0 then
    .error s!"Group {group_name} specifies non-positive number to be observed."
  else
    .ok ()

/-- Construction of an `AndGroup` with all of its `__post_init__` validation:
the base check, the `number_to_observe == len(children)` check, and the
`previous` bounds check. -/
def mkAndGroup (id group_name : String) (number_to_observe : Int)
    (delay_min delay_max : ℚ) (children : Children)
    (group_option : AndOption) (previous : Option Int) :
    Except String Group := do
  groupPostInit group_name number_to_observe
  if number_to_observe ≠ (children.len : Int) then
    .error s!"AND group {group_name} specifies a number to be observed different from its children count."
  else match previous with
  | some p =>
      if p < 0 ∨ p ≥ (children.len : Int) then
        .error s!"AND group {group_name} has an illegal previous value."
      else
        .ok (.andG id group_name number_to_observe delay_min delay_max children
               group_option previous)
  | none =>
      .ok (.andG id group_name number_to_observe delay_min delay_max children
             group_option previous)

/-- Construction of an `OrGroup` with all of its `__post_init__` validation:
the base check and the `number_to_observe >= len(children)` check. -/
def mkOrGroup (id group_name : String) (number_to_observe : Int)
    (delay_min delay_max : ℚ) (children : Children) :
    Except String Group := do
  groupPostInit group_name number_to_observe
  if number_to_observe ≥ (children.len : Int) then
    .error s!"OR group {group_name} specifies too many children to be observed."
  else
    .ok (.orG id group_name number_to_observe delay_min delay_max children)

/-! ## Event queue (`event_queue.py`) -/

/-- Modelled from the spec: the event classes live in
`scheduler/core/eventsqueue/events.py`, outside `src/`.  §3: an `Interruption`
is a timestamped occurrence; only its identity matters to the queue. -/
structure Interruption where
  start : ℚ
deriving DecidableEq, Repr

/-- Modelled from the spec: `Blockage` (from `events.py`, outside `src/`)
marks an open-ended unavailability window; `ends` closes it by supplying its
end time (§3: "a `ResumeNight` event closes the most recently opened blockage
by supplying its end time"). -/
structure Blockage where
  start : ℚ
  end_time : Option ℚ
deriving DecidableEq, Repr

/-- `Blockage.ends`: set the blockage's end time. -/
def Blockage.ends (b : Blockage) (t : ℚ) : Blockage :=
  { b with end_time := some t }

/-- Modelled from the spec: `ResumeNight` (from `events.py`, outside `src/`)
carries the resume start time read by `check_blockage`. -/
structure ResumeNight where
  start : ℚ
deriving DecidableEq, Repr

/-- The polymorphic `Event` hierarchy over the variants the queue matches on. -/
inductive Event where
  | inter (i : Interruption)
  | block (b : Blockage)
  | resume (r : ResumeNight)
deriving DecidableEq, Repr

/-- The state of `EventQueue`: `__init__(night_indices, sites)` installs an
empty deque for every `(night_idx, site)` in the product of the two sets, so
`_events` is embedded as the pair of registered key sets plus the queue
contents on those keys; `_blockage_stack` starts empty. -/
structure EventQueue where
  night_indices : List Nat
  sites : List Site
  queues : Nat → Site → List Event
  blockage_stack : List Blockage

/-- `EventQueue.__init__`: every registered pair gets an empty deque and the
blockage stack starts empty. -/
def EventQueue.init (night_indices : List Nat) (sites : List Site) :
    EventQueue :=
  ⟨night_indices, sites, fun _ _ => [], []⟩

/-- `EventQueue.get_night_events`: `self._events.get(night_idx)` then
`.get(site)`, returning `None` (after logging) when either key is absent —
never raising. -/
def EventQueue.get_night_events (q : EventQueue) (night_idx : Nat)
    (site : Site) : Option (List Event) :=
  if night_idx ∈ q.night_indices then
    if site ∈ q.sites then some (q.queues night_idx site)
    else none
  else none

/-- `EventQueue.add_event`: a `Blockage` is pushed onto the blockage stack; an
`Interruption` is appended to the `(night_idx, site)` deque when registered and
raises `KeyError` otherwise; any other variant falls through the `match`
with no effect. -/
def EventQueue.add_event (q : EventQueue) (night_idx : Nat) (site : Site)
    (event : Event) : Except String EventQueue :=
  match event with
  | .block b => .ok { q with blockage_stack := q.blockage_stack ++ [b] }
  | .inter i =>
      match q.get_night_events night_idx site with
      | some _ =>
          .ok { q with
                queues := fun n s =>
                  if n = night_idx ∧ s = site then
                    q.queues night_idx site ++ [Event.inter i]
                  else q.queues n s }
      | none => .error s!"Could not add event for night index {night_idx}."
  | .resume _ => .ok q

/-- `EventQueue.add_events`: `add_event` for each event in order; a failure
partway leaves the earlier events enqueued (here the surviving state is lost
with the raised exception, matching the documented non-atomicity only in that
no rollback is modelled). -/
def EventQueue.add_events (q : EventQueue) (night_idx : Nat) (site : Site)
    (events : List Event) : Except String EventQueue :=
  events.foldlM (fun acc e => acc.add_event night_idx site e) q

/-- `EventQueue.check_blockage`: succeeds only when the stack is nonempty of
length exactly 1; pops the blockage, sets its end from `resume_event.start`
and returns it; otherwise raises `RuntimeError`. -/
def EventQueue.check_blockage (q : EventQueue) (resume_event : ResumeNight) :
    Except String (Blockage × EventQueue) :=
  match q.blockage_stack with
  | [b] => .ok (b.ends resume_event.start, { q with blockage_stack := [] })
  | _ => .error "Missing blockage for ResumeNight"

/-! ## Default ranker (`default.py`) -/

/-- Modelled from the spec: `Band` comes from `lucupy.minimodel`, outside
`src/` (§3: "a discrete priority tier"); the code names the four members
`BAND1..BAND4`. -/
inductive Band where
  | BAND1 | BAND2 | BAND3 | BAND4
deriving DecidableEq, Repr

/-- `_default_score_combiner`: `np.array([np.max(x)]) if 0 not in x
else np.array([0.])`. `listMax` is `np.max` on a nonempty array (the combiner
is only ever applied to columns with one entry per child). -/
def listMax : List ℚ → ℚ
  | [] => 0
  | [a] => a
  | a :: rest => max a (listMax rest)

def _default_score_combiner (x : List ℚ) : List ℚ :=
  if (0 : ℚ) ∈ x then [0] else [listMax x]

/-- `RankerParameters`: global parameters.  The exponents default to
`power = 2`, `met_power = vis_power = wha_power = 1` and are embedded as `ℕ`
(the code holds them as Python numbers and only ever uses integer values). -/
structure RankerParameters where
  thesis_factor : ℚ := 11/10
  power : Nat := 2
  met_power : Nat := 1
  vis_power : Nat := 1
  wha_power : Nat := 1
  dec_diff_less_40 : ℚ × ℚ × ℚ := (3, 0, -2/25)
  dec_diff : ℚ × ℚ × ℚ := (3, 1/10, -3/50)
  score_combiner : List ℚ → List ℚ := _default_score_combiner

/-- `RankerBandParameters`: per-band curve parameters. -/
structure RankerBandParameters where
  m1 : ℚ
  b1 : ℚ
  m2 : ℚ
  b2 : ℚ
  xb : ℚ
  xb0 : ℚ
  xc0 : ℚ
deriving DecidableEq, Repr

/-- One iteration of the loop in `_default_band_params`: from the band's `m2`
and the running `b1`, compute `b2 = b1 + 5 - m2`, solve
`m1 = (m2*xb + b2) / xb**2` so the curves meet at `xb`, and advance
`b1 += m2 * 1.0 + b2`. -/
def bandStep (m2v b1 : ℚ) : RankerBandParameters × ℚ :=
  let xb : ℚ := 4/5
  let b2 := b1 + 5 - m2v
  let m1 := (m2v * xb + b2) / xb ^ 2
  (⟨m1, b1, m2v, b2, xb, 0, 0⟩, b1 + m2v * 1 + b2)

/-- `_default_band_params`: BAND4 is fixed; BAND3, BAND2, BAND1 are produced
by the loop (in that order, `b1` starting at 1.2, `m2` at 1.0/6.0/20.0). -/
def _default_band_params : Band → RankerBandParameters :=
  let p3 := bandStep 1 (6/5)
  let p2 := bandStep 6 p3.2
  let p1 := bandStep 20 p2.2
  fun band => match band with
  | .BAND4 => ⟨0, 1/10, 0, 0, 4/5, 0, 0⟩
  | .BAND3 => p3.1
  | .BAND2 => p2.1
  | .BAND1 => p1.1

/-- The `eps` threshold of `_metric_slope`. -/
def eps : ℚ := 1 / 10000000

/-- The `xb` in effect inside the loop of `_metric_slope`: the item's `b3min`
for Band 3, otherwise the band's fixed `xb`. -/
def xb_used (band_params : Band → RankerBandParameters) (band : Band)
    (b3min : ℚ) : ℚ :=
  if band = Band.BAND3 then b3min else (band_params band).xb

/-- The intercept `b2` computed inside the loop of `_metric_slope` "so that
the functions are continuous": for `power = 1` it is recomputed from the `xb`
in effect, for `power = 2` the precomputed `b2` is reused; the initial value
0.0 stands for any other power. -/
def b2_used (band_params : Band → RankerBandParameters) (power : Nat)
    (band : Band) (b3min : ℚ) : ℚ :=
  let xb := xb_used band_params band b3min
  if power = 1 then
    xb * ((band_params band).m1 - (band_params band).m2)
      + (band_params band).xb0 + (band_params band).b1
  else if power = 2 then
    (band_params band).b2 + (band_params band).xb0 + (band_params band).b1
  else 0

/-- The per-item piecewise metric/slope computation in the loop body of
`_metric_slope`. -/
def metricSlopeAt (band_params : Band → RankerBandParameters) (power : Nat)
    (band : Band) (completion : ℚ) (b3min : ℚ) : ℚ × ℚ :=
  let p := band_params band
  let xb := xb_used band_params band b3min
  let b2 := b2_used band_params power band b3min
  if completion ≤ eps then (0, 0)
  else if completion < xb then
    (p.m1 * completion ^ power + p.b1,
     (power : ℚ) * p.m1 * completion ^ (power - 1))
  else if completion < 1 then (p.m2 * completion + b2, p.m2)
  else (p.m2 * 1 + b2 + p.xc0, p.m2)

/-- `DefaultRanker._metric_slope`: raises `ValueError` when the band and
completion arrays differ in length, otherwise computes the per-item piecewise
metric and slope and, when `thesis` is set, adds the thesis factor to every
metric (not the slope).  `b3min` entries are read positionally like the code's
`b3min[idx]` (missing entries default to 0; the callers always pass arrays of
matching length). -/
def metric_slope (band_params : Band → RankerBandParameters)
    (params : RankerParameters) (completion : List ℚ) (band : List Band)
    (b3min : List ℚ) (thesis : Bool) : Except String (List ℚ × List ℚ) :=
  if band.length ≠ completion.length then
    .error "Incompatible lengths between band and completion arrays"
  else
    let pairs := (List.range band.length).map fun idx =>
      metricSlopeAt band_params params.power (band.getD idx Band.BAND4)
        (completion.getD idx 0) (b3min.getD idx 0)
    let metric := pairs.map Prod.fst
    let slope := pairs.map Prod.snd
    if thesis then .ok (metric.map (· + params.thesis_factor), slope)
    else .ok (metric, slope)

/-- `np.min` on a nonempty array (companion to `listMax`). -/
def listMin : List ℚ → ℚ
  | [] => 0
  | [a] => a
  | a :: rest => min a (listMin rest)

/-- Modelled from the spec: the `TargetInfo` record supplied per observation
per night by the visibility supplier (§6): declination data, an hour-angle
array (one value per time slot), the remaining-visibility fraction, and the
index set of visible time slots. -/
structure TargetInfo where
  dec : List ℚ
  hourangle : List ℚ
  rem_visibility_frac : ℚ
  visibility_slot_idx : List Nat

/-- The `Program` fields read by `score_observation` (§3: the program
accounting supplier): time used, time awarded, band, thesis flag. -/
structure ProgramR where
  total_used : ℚ
  total_awarded : ℚ
  band : Band
  thesis : Bool

/-- The `Observation` fields read by `score_observation`: site, execution
time, time already used. -/
structure ObservationR where
  site : Site
  exec_time : ℚ
  total_used : ℚ

/-- `DefaultRanker.score_observation`.  `slots site n` is the slot count of
the all-zero per-night template `_empty_obs_scores[site][n]` and `lat site`
the site latitude in degrees (both modelled from the spec: the template and
`site.location` live outside `src/`; §3 "all-zero by construction", §4.2
step 3).  `target_info` is the visibility supplier's result: `none` is the
"no data" sentinel. -/
def score_observation (band_params : Band → RankerBandParameters)
    (params : RankerParameters) (night_indices : List Nat)
    (slots : Site → Nat → Nat) (lat : Site → ℚ) (program : ProgramR)
    (obs : ObservationR) (target_info : Option (Nat → TargetInfo)) :
    Except String (List (List ℚ)) := do
  let scores0 := night_indices.map fun n =>
    List.replicate (slots obs.site n) (0 : ℚ)
  match target_info with
  | none => return scores0
  | some ti =>
    let remaining := obs.exec_time - obs.total_used
    let cplt := (program.total_used + remaining) / program.total_awarded
    let ms ← metric_slope band_params params [cplt] [program.band] [4/5]
      program.thesis
    let metric0 := ms.1.getD 0 0
    let site_latitude := lat obs.site
    return night_indices.map fun n =>
      let dec := (ti n).dec
      let dec_diff :=
        if site_latitude < 0 then |site_latitude - listMax dec|
        else |listMin dec - site_latitude|
      let c := if dec_diff < 40 then params.dec_diff_less_40
               else params.dec_diff
      let wha := (ti n).hourangle.map fun h =>
        c.1 + c.2.1 * h + c.2.2 * h ^ 2
      let wha' := wha.map fun w => if w ≤ 0 then 0 else w
      let p := wha'.map fun w =>
        metric0 ^ params.met_power
          * (ti n).rem_visibility_frac ^ params.vis_power
          * w ^ params.wha_power
      (List.range (slots obs.site n)).map fun j =>
        if j ∈ (ti n).visibility_slot_idx then p.getD j 0 else 0

/-- `DefaultRanker._score_and_group`: raises `ValueError` unless the group's
sites collapse to exactly one; otherwise, per night, stacks each immediate
child's already-computed scores (a row per child, a column per time slot,
looked up in `group_data_map` by the child's id) and reduces each column with
`params.score_combiner`, taking index 0 of the combiner's singleton result.
`slots n` is the per-night slot count of the zero template
`_empty_group_scores[site]` (modelled from the spec: the template lives
outside `src/`).  A `sites()` failure or a non-iterable `children` field
propagates as an error. -/
def score_and_group (params : RankerParameters) (group : Group)
    (group_data_map : String → Nat → List ℚ) (night_indices : List Nat)
    (slots : Nat → Nat) : Except String (List (List ℚ)) :=
  match Group.sites group with
  | none => .error "sites() failed: empty children sequence"
  | some s =>
    if s.card ≠ 1 then
      .error "AND group has too many sites"
    else match group.childrenOf with
    | .obs _ => .error "children is not iterable"
    | .groups gs =>
      .ok (night_indices.map fun n =>
        let rows := gs.map fun child => group_data_map child.gid n
        (List.range (slots n)).map fun j =>
          (params.score_combiner (rows.map fun r => r.getD j 0)).headD 0)

/-! ## Theorems -/

/-- C5: Group construction fails exactly in the invalid cases: any group with
`number_to_observe ≤ 0`; an AndGroup whose `number_to_observe` differs from
its children count; an OrGroup whose `number_to_observe` is at least its
children count; an AndGroup whose `previous` is set outside
`[0, len(children))`.  No group is created in such a state (construction
succeeds iff none of the cases holds). -/
theorem group_construction_valid_iff (id group_name : String)
    (number_to_observe : Int) (delay_min delay_max : ℚ) (children : Children)
    (group_option : AndOption) (previous : Option Int) :
    ((∃ g, mkAndGroup id group_name number_to_observe delay_min delay_max
        children group_option previous = .ok g) ↔
      ¬(number_to_observe ≤ 0 ∨ number_to_observe ≠ (children.len : Int) ∨
        ∃ p, previous = some p ∧ (p < 0 ∨ p ≥ (children.len : Int)))) ∧
    ((∃ g, mkOrGroup id group_name number_to_observe delay_min delay_max
        children = .ok g) ↔
      ¬(number_to_observe ≤ 0 ∨ number_to_observe ≥ (children.len : Int))) := by
  constructor
  · by_cases h1 : number_to_observe ≤ 0
    · simp [mkAndGroup, groupPostInit, h1, Bind.bind, Except.bind]
    · by_cases h2 : number_to_observe ≠ (children.len : Int)
      · simp [mkAndGroup, groupPostInit, h1, h2, Bind.bind, Except.bind]
      · cases previous with
        | none =>
            simp [mkAndGroup, groupPostInit, h1, h2, Bind.bind, Except.bind]
        | some p =>
            by_cases h3 : p < 0 ∨ p ≥ (children.len : Int)
            · simp [mkAndGroup, groupPostInit, h1, h2, h3, Bind.bind,
                Except.bind]
            · simp [mkAndGroup, groupPostInit, h1, h2, h3, Bind.bind,
                Except.bind]
  · by_cases h1 : number_to_observe ≤ 0
    · simp [mkOrGroup, groupPostInit, h1, Bind.bind, Except.bind]
    · by_cases h2 : number_to_observe ≥ (children.len : Int)
      · simp [mkOrGroup, groupPostInit, h1, h2, Bind.bind, Except.bind]
      · simp [mkOrGroup, groupPostInit, h1, h2, Bind.bind, Except.bind]

theorem group_construction_valid_iff_witness :
    (∃ g, mkAndGroup "a" "a" 2 0 0
        (Children.groups [Group.orG "x" "x" 1 0 0 (Children.obs ⟨0⟩),
                          Group.orG "y" "y" 1 0 0 (Children.obs ⟨1⟩)])
        AndOption.ANYORDER (some 1) = .ok g) ∧
    ¬(∃ g, mkOrGroup "b" "b" 2 0 0
        (Children.groups [Group.orG "x" "x" 1 0 0 (Children.obs ⟨0⟩),
                          Group.orG "y" "y" 1 0 0 (Children.obs ⟨1⟩)])
        = .ok g) := by
  have h := group_construction_valid_iff "a" "a" 2 0 0
    (Children.groups [Group.orG "x" "x" 1 0 0 (Children.obs ⟨0⟩),
                      Group.orG "y" "y" 1 0 0 (Children.obs ⟨1⟩)])
    AndOption.ANYORDER (some 1)
  have h' := group_construction_valid_iff "b" "b" 2 0 0
    (Children.groups [Group.orG "x" "x" 1 0 0 (Children.obs ⟨0⟩),
                      Group.orG "y" "y" 1 0 0 (Children.obs ⟨1⟩)])
    AndOption.ANYORDER (some 1)
  exact ⟨h.1.mpr (by decide), fun hc => by
    have := h'.2.mp hc
    exact this (by decide)⟩

/-- Inversion for successful AndGroup construction. -/
theorem mkAndGroup_ok_inv {id group_name : String} {number_to_observe : Int}
    {delay_min delay_max : ℚ} {children : Children}
    {group_option : AndOption} {previous : Option Int} {g : Group}
    (h : mkAndGroup id group_name number_to_observe delay_min delay_max
      children group_option previous = .ok g) :
    0 < number_to_observe ∧ number_to_observe = (children.len : Int) ∧
      g = .andG id group_name number_to_observe delay_min delay_max children
            group_option previous := by
  by_cases h1 : number_to_observe ≤ 0
  · simp [mkAndGroup, groupPostInit, h1, Bind.bind, Except.bind] at h
  · by_cases h2 : number_to_observe ≠ (children.len : Int)
    · simp [mkAndGroup, groupPostInit, h1, h2, Bind.bind, Except.bind] at h
    · cases previous with
      | none =>
          simp [mkAndGroup, groupPostInit, h1, h2, Bind.bind, Except.bind] at h
          exact ⟨by omega, by omega, h.symm⟩
      | some p =>
          by_cases h3 : p < 0 ∨ p ≥ (children.len : Int)
          · simp [mkAndGroup, groupPostInit, h1, h2, h3, Bind.bind,
              Except.bind] at h
          · simp [mkAndGroup, groupPostInit, h1, h2, h3, Bind.bind,
              Except.bind] at h
            exact ⟨by omega, by omega, h.symm⟩

/-- Inversion for successful OrGroup construction. -/
theorem mkOrGroup_ok_inv {id group_name : String} {number_to_observe : Int}
    {delay_min delay_max : ℚ} {children : Children} {g : Group}
    (h : mkOrGroup id group_name number_to_observe delay_min delay_max
      children = .ok g) :
    0 < number_to_observe ∧ number_to_observe < (children.len : Int) ∧
      g = .orG id group_name number_to_observe delay_min delay_max children := by
  by_cases h1 : number_to_observe ≤ 0
  · simp [mkOrGroup, groupPostInit, h1, Bind.bind, Except.bind] at h
  · by_cases h2 : number_to_observe ≥ (children.len : Int)
    · simp [mkOrGroup, groupPostInit, h1, h2, Bind.bind, Except.bind] at h
    · simp [mkOrGroup, groupPostInit, h1, h2, Bind.bind, Except.bind] at h
      exact ⟨by omega, by omega, h.symm⟩

/-- `Group.sitesL` succeeds on a list whose members' `sites` all succeed. -/
theorem sitesL_isSome (l : List Group)
    (h : ∀ c ∈ l, (Group.sites c).isSome) : (Group.sitesL l).isSome := by
  induction l with
  | nil => simp [Group.sitesL]
  | cons g gs ih =>
      have hg := h g (by simp)
      have hgs := ih (fun c hc => h c (by simp [hc]))
      rcases Option.isSome_iff_exists.mp hg with ⟨s, hs⟩
      rcases Option.isSome_iff_exists.mp hgs with ⟨r, hr⟩
      simp [Group.sitesL, hs, hr, Bind.bind, Option.bind]

/-- `Children.sitesC` succeeds on a nonempty group list whose members'
`sites` all succeed. -/
theorem sitesC_groups_isSome (g : Group) (gs : List Group)
    (h : ∀ c ∈ g :: gs, (Group.sites c).isSome) :
    (Children.sitesC (.groups (g :: gs))).isSome := by
  have hg := h g (by simp)
  have hgs := sitesL_isSome gs (fun c hc => h c (by simp [hc]))
  rcases Option.isSome_iff_exists.mp hg with ⟨s, hs⟩
  rcases Option.isSome_iff_exists.mp hgs with ⟨r, hr⟩
  simp [Children.sitesC, hs, hr, Bind.bind, Option.bind]

/-- C10: every successfully constructed AndGroup over a children list has at
least one child, every successfully constructed OrGroup at least two; hence
`sites()` on such a non-leaf group never hits the empty-children union
failure (its union is defined whenever the children's own `sites` are). -/
theorem constructed_nonleaf_children_nonempty (id group_name : String)
    (number_to_observe : Int) (delay_min delay_max : ℚ) (gs : List Group)
    (group_option : AndOption) (previous : Option Int) (g : Group) :
    (mkAndGroup id group_name number_to_observe delay_min delay_max
        (.groups gs) group_option previous = .ok g →
      gs ≠ [] ∧
      ((∀ c ∈ gs, (Group.sites c).isSome) → (Group.sites g).isSome)) ∧
    (mkOrGroup id group_name number_to_observe delay_min delay_max
        (.groups gs) = .ok g →
      2 ≤ gs.length ∧
      ((∀ c ∈ gs, (Group.sites c).isSome) → (Group.sites g).isSome)) := by
  constructor
  · intro h
    obtain ⟨hpos, hlen, hg⟩ := mkAndGroup_ok_inv h
    have hne : gs ≠ [] := by
      intro hnil
      subst hnil
      simp [Children.len] at hlen
      omega
    refine ⟨hne, fun hall => ?_⟩
    subst hg
    cases gs with
    | nil => exact absurd rfl hne
    | cons c cs => exact sitesC_groups_isSome c cs hall
  · intro h
    obtain ⟨hpos, hlen, hg⟩ := mkOrGroup_ok_inv h
    simp [Children.len] at hlen
    have h2 : 2 ≤ gs.length := by omega
    refine ⟨h2, fun hall => ?_⟩
    subst hg
    cases gs with
    | nil => simp at h2
    | cons c cs => exact sitesC_groups_isSome c cs hall

theorem constructed_nonleaf_children_nonempty_witness :
    mkAndGroup "a" "a" 1 0 0
        (Children.groups [Group.orG "x" "x" 1 0 0 (Children.obs ⟨0⟩)])
        AndOption.ANYORDER none =
      .ok (Group.andG "a" "a" 1 0 0
        (Children.groups [Group.orG "x" "x" 1 0 0 (Children.obs ⟨0⟩)])
        AndOption.ANYORDER none) ∧
    [Group.orG "x" "x" 1 0 0 (Children.obs ⟨0⟩)] ≠ [] ∧
    (Group.sites (Group.andG "a" "a" 1 0 0
        (Children.groups [Group.orG "x" "x" 1 0 0 (Children.obs ⟨0⟩)])
        AndOption.ANYORDER none)).isSome := by
  have h := (constructed_nonleaf_children_nonempty "a" "a" 1 0 0
      [Group.orG "x" "x" 1 0 0 (Children.obs ⟨0⟩)]
      AndOption.ANYORDER none
      (Group.andG "a" "a" 1 0 0
        (Children.groups [Group.orG "x" "x" 1 0 0 (Children.obs ⟨0⟩)])
        AndOption.ANYORDER none)).1 (by rfl)
  exact ⟨by rfl, h.1, h.2 (by decide)⟩

/-- C6: `check_blockage` succeeds exactly on a singleton blockage stack: it
pops the blockage, sets its end time to the resume event's start, and returns
it (leaving the stack empty, so an immediate second call fails); an empty
stack or a stack with more than one blockage raises a runtime error. -/
theorem check_blockage_spec (q : EventQueue) (resume_event : ResumeNight) :
    (q.blockage_stack = [] →
      ∃ e, q.check_blockage resume_event = .error e) ∧
    (∀ b, q.blockage_stack = [b] →
      q.check_blockage resume_event =
        .ok (b.ends resume_event.start, { q with blockage_stack := [] }) ∧
      (b.ends resume_event.start).end_time = some resume_event.start ∧
      ∀ r2, ({ q with blockage_stack := ([] : List Blockage) }).check_blockage
              r2 = .error "Missing blockage for ResumeNight") ∧
    (2 ≤ q.blockage_stack.length →
      ∃ e, q.check_blockage resume_event = .error e) := by
  refine ⟨?_, ?_, ?_⟩
  · intro h
    exact ⟨"Missing blockage for ResumeNight",
      by simp [EventQueue.check_blockage, h]⟩
  · intro b h
    refine ⟨by simp [EventQueue.check_blockage, h], rfl, fun r2 => ?_⟩
    simp [EventQueue.check_blockage]
  · intro h
    rcases hs : q.blockage_stack with _ | ⟨b, rest⟩
    · simp [hs] at h
    · rcases rest with _ | ⟨b2, rest2⟩
      · simp [hs] at h
      · exact ⟨"Missing blockage for ResumeNight",
          by simp [EventQueue.check_blockage, hs]⟩

theorem check_blockage_spec_witness :
    (EventQueue.check_blockage
        ⟨[0], [0], fun _ _ => [], [⟨5, none⟩]⟩ ⟨7⟩ =
      .ok (⟨5, some 7⟩, ⟨[0], [0], fun _ _ => [], []⟩)) ∧
    (EventQueue.check_blockage ⟨[0], [0], fun _ _ => [], []⟩ ⟨7⟩ =
      .error "Missing blockage for ResumeNight") := by
  have h := (check_blockage_spec ⟨[0], [0], fun _ _ => [], [⟨5, none⟩]⟩
      ⟨7⟩).2.1 ⟨5, none⟩ rfl
  exact ⟨h.1, h.2.2 ⟨7⟩⟩

/-- C8: for an unregistered `(night, site)` pair, `add_event` with an
`Interruption` raises a lookup error while `get_night_events` returns the
absent sentinel `none` without raising. -/
theorem unregistered_pair_behavior (q : EventQueue) (night_idx : Nat)
    (site : Site) (i : Interruption)
    (h : night_idx ∉ q.night_indices ∨ site ∉ q.sites) :
    (∃ e, q.add_event night_idx site (.inter i) = .error e) ∧
    q.get_night_events night_idx site = none := by
  have habs : q.get_night_events night_idx site = none := by
    rcases h with h | h
    · simp [EventQueue.get_night_events, h]
    · by_cases hn : night_idx ∈ q.night_indices <;>
        simp [EventQueue.get_night_events, h, hn]
  refine ⟨⟨s!"Could not add event for night index {night_idx}.", ?_⟩, habs⟩
  simp [EventQueue.add_event, habs]

theorem unregistered_pair_behavior_witness :
    (∃ e, EventQueue.add_event (EventQueue.init [0] [0]) 1 0
        (.inter ⟨3⟩) = .error e) ∧
    EventQueue.get_night_events (EventQueue.init [0] [0]) 1 0 = none :=
  unregistered_pair_behavior (EventQueue.init [0] [0]) 1 0 ⟨3⟩
    (by simp [EventQueue.init])

/-- C9: `add_event` raises only for an Interruption on an unregistered pair:
a Blockage is always accepted and pushed on the process-wide blockage stack
with the interruption queues untouched; a `ResumeNight` handed to `add_event`
is silently ignored, leaving the state unchanged. -/
theorem add_event_error_cases (q : EventQueue) (night_idx : Nat)
    (site : Site) :
    (∀ b, q.add_event night_idx site (.block b) =
      .ok { q with blockage_stack := q.blockage_stack ++ [b] }) ∧
    (∀ r, q.add_event night_idx site (.resume r) = .ok q) ∧
    (∀ e, (∃ msg, q.add_event night_idx site e = .error msg) ↔
      ((∃ i, e = .inter i) ∧
        (night_idx ∉ q.night_indices ∨ site ∉ q.sites))) := by
  refine ⟨fun b => rfl, fun r => rfl, fun e => ?_⟩
  constructor
  · intro ⟨msg, hmsg⟩
    cases e with
    | block b => simp [EventQueue.add_event] at hmsg
    | resume r => simp [EventQueue.add_event] at hmsg
    | inter i =>
        refine ⟨⟨i, rfl⟩, ?_⟩
        by_cases hn : night_idx ∈ q.night_indices
        · by_cases hs : site ∈ q.sites
          · simp [EventQueue.add_event, EventQueue.get_night_events,
              hn, hs] at hmsg
          · exact Or.inr hs
        · exact Or.inl hn
  · intro ⟨⟨i, hi⟩, habs⟩
    subst hi
    have habs' : q.get_night_events night_idx site = none := by
      rcases habs with h | h
      · simp [EventQueue.get_night_events, h]
      · by_cases hn : night_idx ∈ q.night_indices <;>
          simp [EventQueue.get_night_events, h, hn]
    exact ⟨s!"Could not add event for night index {night_idx}.",
      by simp [EventQueue.add_event, habs']⟩

theorem add_event_error_cases_witness :
    EventQueue.add_event (EventQueue.init [0] [0]) 5 9
        (.block ⟨2, none⟩) =
      .ok { EventQueue.init [0] [0] with blockage_stack := [⟨2, none⟩] } ∧
    EventQueue.add_event (EventQueue.init [0] [0]) 5 9 (.resume ⟨4⟩) =
      .ok (EventQueue.init [0] [0]) := by
  have h := add_event_error_cases (EventQueue.init [0] [0]) 5 9
  exact ⟨h.1 ⟨2, none⟩, h.2.1 ⟨4⟩⟩

/-- C2 counterexample: with the default band parameters, power 2 and Band 3
with supplied minimum fraction 1/2 (i.e. `xb = 0.5`), the intercept `b2`
actually used by `_metric_slope` does not make the two segments meet at `xb`:
`m1 * xb^2 + b1 = 567/160` but `m2 * xb + b2 = 69/10`. -/
theorem metric_continuity_counterexample :
    ¬((_default_band_params Band.BAND3).m1
        * xb_used _default_band_params Band.BAND3 (1/2) ^ 2
        + (_default_band_params Band.BAND3).b1
      = (_default_band_params Band.BAND3).m2
        * xb_used _default_band_params Band.BAND3 (1/2)
        + b2_used _default_band_params 2 Band.BAND3 (1/2)) := by
  norm_num [_default_band_params, bandStep, xb_used, b2_used]

/-- C2 (amended): with the default band parameters, the `b2` used by
`_metric_slope` preserves continuity at the `xb` in effect for power 1 at
every band and every supplied Band-3 minimum fraction; for power 2 it does so
whenever the `xb` in effect is the bands' fixed constant 0.8 — i.e. for every
band other than Band 3, and for Band 3 exactly when the supplied fraction is
0.8.  (For Band 3 under power 2 the code reuses the intercept precomputed for
`xb = 0.8`, so continuity fails for other supplied fractions.) -/
theorem metric_continuity_amended (band : Band) (power : Nat) (b3min : ℚ)
    (h : power = 1 ∨ (power = 2 ∧ (band ≠ Band.BAND3 ∨ b3min = 4/5))) :
    (_default_band_params band).m1
        * xb_used _default_band_params band b3min ^ power
        + (_default_band_params band).b1
      = (_default_band_params band).m2
        * xb_used _default_band_params band b3min
        + b2_used _default_band_params power band b3min := by
  rcases h with h1 | ⟨h2, h3⟩
  · subst h1
    cases band <;>
      simp [xb_used, b2_used, _default_band_params, bandStep] <;> ring
  · subst h2
    cases band with
    | BAND3 =>
        rcases h3 with h3 | h3
        · exact absurd rfl h3
        · subst h3
          norm_num [_default_band_params, bandStep, xb_used, b2_used]
    | BAND1 =>
        norm_num [_default_band_params, bandStep, xb_used, b2_used]
        rw [if_neg (by decide), if_neg (by decide)]
        norm_num
    | BAND2 =>
        norm_num [_default_band_params, bandStep, xb_used, b2_used]
        rw [if_neg (by decide), if_neg (by decide)]
        norm_num
    | BAND4 =>
        norm_num [_default_band_params, bandStep, xb_used, b2_used]

theorem metric_continuity_amended_witness :
    ((1 : Nat) = 1 ∨ ((1 : Nat) = 2 ∧ (Band.BAND3 ≠ Band.BAND3 ∨ (1/2 : ℚ) = 4/5))) ∧
    (_default_band_params Band.BAND3).m1
        * xb_used _default_band_params Band.BAND3 (1/2) ^ 1
        + (_default_band_params Band.BAND3).b1
      = (_default_band_params Band.BAND3).m2
        * xb_used _default_band_params Band.BAND3 (1/2)
        + b2_used _default_band_params 1 Band.BAND3 (1/2) :=
  ⟨Or.inl rfl,
   metric_continuity_amended Band.BAND3 1 (1/2) (Or.inl rfl)⟩

/-- C4: in `_metric_slope` with `is_thesis` false and the default band
parameters, completion 0 yields metric 0 and slope 0 for every band; every
completion ≥ 1 yields metric `m2 * 1 + b2 + xc0` (the post-threshold value at
x = 1 plus the fixed post-completion offset, independent of the completion)
with slope `m2`.  `b3min ≤ 1` keeps the Band-3 threshold inside the unit
interval, as in every call the code makes (it always passes 0.8). -/
theorem metric_slope_extremes (params : RankerParameters) (band : Band)
    (b3min : ℚ) (c : ℚ) (hb3 : b3min ≤ 1) (hc : 1 ≤ c) :
    metric_slope _default_band_params params [0] [band] [b3min] false =
      .ok ([0], [0]) ∧
    metric_slope _default_band_params params [c] [band] [b3min] false =
      .ok ([(_default_band_params band).m2 * 1
              + b2_used _default_band_params params.power band b3min
              + (_default_band_params band).xc0],
           [(_default_band_params band).m2]) := by
  have heps : ¬((c : ℚ) ≤ eps) := by
    simp only [eps]
    intro hle
    norm_num at hle
    linarith
  have hxb : ¬(c < xb_used _default_band_params band b3min) := by
    have hle : xb_used _default_band_params band b3min ≤ 1 := by
      cases band <;> simp [xb_used, _default_band_params, bandStep] <;>
        first
          | exact hb3
          | norm_num
    intro hlt
    linarith
  have h1 : ¬(c < 1) := by linarith
  constructor
  · have h0 : (0 : ℚ) ≤ eps := by norm_num [eps]
    simp [metric_slope, metricSlopeAt, List.range_succ, List.range_zero, h0]
  · simp [metric_slope, metricSlopeAt, List.range_succ, List.range_zero, heps, hxb, h1]

theorem metric_slope_extremes_witness :
    ((4/5 : ℚ) ≤ 1) ∧ ((1 : ℚ) ≤ 2) ∧
    metric_slope _default_band_params {} [2] [Band.BAND1] [4/5] false =
      .ok ([(_default_band_params Band.BAND1).m2 * 1
              + b2_used _default_band_params 2 Band.BAND1 (4/5)
              + (_default_band_params Band.BAND1).xc0],
           [(_default_band_params Band.BAND1).m2]) :=
  ⟨by norm_num, by norm_num,
   (metric_slope_extremes {} Band.BAND1 (4/5) 2 (by norm_num)
      (by norm_num)).2⟩

/-- C3: `score_observation` returns the all-zero template for every night
when the visibility supplier has no data for the observation (a silent no-op),
and when data is present every slot outside the night's visible-slot index set
is exactly 0. -/
theorem score_observation_visibility
    (band_params : Band → RankerBandParameters) (params : RankerParameters)
    (night_indices : List Nat) (slots : Site → Nat → Nat) (lat : Site → ℚ)
    (program : ProgramR) (obs : ObservationR) :
    (score_observation band_params params night_indices slots lat program obs
        none =
      .ok (night_indices.map fun n => List.replicate (slots obs.site n) 0)) ∧
    (∀ ti out,
      score_observation band_params params night_indices slots lat program obs
          (some ti) = .ok out →
      ∀ i, i < night_indices.length →
      ∀ j, j ∉ (ti (night_indices.getD i 0)).visibility_slot_idx →
        (out.getD i []).getD j 0 = 0) := by
  constructor
  · rfl
  · intro ti out hok i hi j hj
    cases hth : program.thesis <;>
      simp [score_observation, metric_slope, hth, Bind.bind,
        Except.bind] at hok
    all_goals
      have hout := Except.ok.inj hok
      subst hout
      have hrow : ∀ f : Nat → List ℚ,
          (List.map f night_indices).getD i [] = f (night_indices[i]) :=
        fun f => by
          rw [List.getD_eq_getElem _ _ (by simpa using hi), List.getElem_map]
      rw [hrow]
      rw [List.getD_eq_getElem _ _ hi] at hj
      by_cases hjk : j < slots obs.site (night_indices[i])
      · have hcell : ∀ g : Nat → ℚ,
            (List.map g (List.range (slots obs.site (night_indices[i])))).getD
              j 0 = g j := fun g => by
          rw [List.getD_eq_getElem _ _ (by simpa using hjk),
            List.getElem_map, List.getElem_range]
        rw [hcell]
        exact if_neg hj
      · exact List.getD_eq_default _ _ (by simpa using Nat.le_of_not_lt hjk)

theorem score_observation_visibility_witness :
    (score_observation _default_band_params {} [0] (fun _ _ => 3)
        (fun _ => -30) ⟨10, 100, Band.BAND1, false⟩ ⟨0, 5, 1⟩ none =
      .ok [[0, 0, 0]]) ∧
    ((0 : Nat) < 1) ∧
    ∀ out, score_observation _default_band_params {} [0] (fun _ _ => 3)
        (fun _ => -30) ⟨10, 100, Band.BAND1, false⟩ ⟨0, 5, 1⟩
        (some fun _ => ⟨[20], [0, 1, -10], 1/2, [0, 2]⟩) = .ok out →
      (out.getD 0 []).getD 1 0 = 0 := by
  refine ⟨?_, Nat.zero_lt_one, fun out hok => ?_⟩
  · have h := (score_observation_visibility _default_band_params {} [0]
      (fun _ _ => 3) (fun _ => -30) ⟨10, 100, Band.BAND1, false⟩
      ⟨0, 5, 1⟩).1
    simpa using h
  · exact (score_observation_visibility _default_band_params {} [0]
      (fun _ _ => 3) (fun _ => -30) ⟨10, 100, Band.BAND1, false⟩
      ⟨0, 5, 1⟩).2 (fun _ => ⟨[20], [0, 1, -10], 1/2, [0, 2]⟩) out hok 0
      Nat.zero_lt_one 1 (by decide)

/-- C7: `_score_and_group` raises its domain error whenever the group's
descendant site set has size other than one, and an ok result is only
produced when the sites collapse to exactly one. -/
theorem and_group_single_site_required (params : RankerParameters)
    (group : Group) (group_data_map : String → Nat → List ℚ)
    (night_indices : List Nat) (slots : Nat → Nat) :
    (∀ s, Group.sites group = some s → s.card ≠ 1 →
      score_and_group params group group_data_map night_indices slots =
        .error "AND group has too many sites") ∧
    (∀ out, score_and_group params group group_data_map night_indices slots =
        .ok out →
      ∃ s, Group.sites group = some s ∧ s.card = 1) := by
  constructor
  · intro s hs hcard
    simp [score_and_group, hs, hcard]
  · intro out hok
    rcases hsites : Group.sites group with _ | s
    · simp [score_and_group, hsites] at hok
    · by_cases hcard : s.card = 1
      · exact ⟨s, rfl, hcard⟩
      · simp [score_and_group, hsites, hcard] at hok

theorem and_group_single_site_required_witness :
    score_and_group {}
      (Group.andG "g" "g" 2 0 0
        (Children.groups
          [Group.andG "c1" "c1" 1 0 0 (Children.obs ⟨0⟩)
             AndOption.ANYORDER none,
           Group.andG "c2" "c2" 1 0 0 (Children.obs ⟨1⟩)
             AndOption.ANYORDER none])
        AndOption.ANYORDER none)
      (fun _ _ => []) [0] (fun _ => 1) =
      .error "AND group has too many sites" := by
  refine (and_group_single_site_required {} _ (fun _ _ => []) [0]
    (fun _ => 1)).1 ({0} ∪ ({1} ∪ ∅)) ?_ ?_
  · simp [Group.sites, Children.sitesC, Group.sitesL, Bind.bind, Option.bind]
  · simp

/-- C1: for an AND group scored with the default score combiner, the combined
score at each time slot of each night is the slot-wise maximum of the
immediate children's scores at that slot, except that it is exactly 0 as soon
as any child's score at that slot is 0. -/
theorem and_group_default_combiner (params : RankerParameters)
    (group : Group) (group_data_map : String → Nat → List ℚ)
    (night_indices : List Nat) (slots : Nat → Nat) (gs : List Group)
    (out : List (List ℚ)) (i j : Nat)
    (hcomb : params.score_combiner = _default_score_combiner)
    (hch : group.childrenOf = .groups gs)
    (hok : score_and_group params group group_data_map night_indices slots =
      .ok out)
    (hi : i < night_indices.length)
    (hj : j < slots (night_indices.getD i 0)) :
    (out.getD i []).getD j 0 =
      if ∃ c ∈ gs,
          (group_data_map c.gid (night_indices.getD i 0)).getD j 0 = 0
      then 0
      else listMax (gs.map fun c =>
        (group_data_map c.gid (night_indices.getD i 0)).getD j 0) := by
  rcases hsites : Group.sites group with _ | s
  · simp [score_and_group, hsites] at hok
  · by_cases hcard : s.card = 1
    · rw [score_and_group] at hok
      rw [hsites] at hok
      simp only [hcard, ne_eq, not_true_eq_false, if_false, ite_false,
        reduceIte, hch] at hok
      have hout := Except.ok.inj hok
      subst hout
      rw [List.getD_eq_getElem _ _ hi]
      have hrow : ∀ f : Nat → List ℚ,
          (List.map f night_indices).getD i [] = f (night_indices[i]) :=
        fun f => by
          rw [List.getD_eq_getElem _ _ (by simpa using hi), List.getElem_map]
      rw [hrow]
      rw [List.getD_eq_getElem _ _ hi] at hj
      have hcell : ∀ g : Nat → ℚ,
          ((List.range (slots (night_indices[i]))).map g).getD j 0 = g j :=
        fun g => by
          rw [List.getD_eq_getElem _ _ (by simpa using hj),
            List.getElem_map, List.getElem_range]
      rw [hcell, hcomb, _default_score_combiner]
      simp only [List.map_map]
      by_cases hmem : (0 : ℚ) ∈ gs.map fun c =>
          (group_data_map c.gid (night_indices[i])).getD j 0
      · rw [if_pos (by simpa using hmem)]
        rcases List.mem_map.mp hmem with ⟨c, hc, hval⟩
        rw [if_pos ⟨c, hc, hval⟩]
        simp
      · rw [if_neg (by simpa using hmem)]
        rw [if_neg (by
          intro ⟨c, hc, hval⟩
          exact hmem (List.mem_map.mpr ⟨c, hc, hval⟩))]
        rfl
    · simp [score_and_group, hsites, hcard] at hok

theorem and_group_default_combiner_witness :
    score_and_group {}
      (Group.andG "g" "g" 2 0 0
        (Children.groups
          [Group.andG "c1" "c1" 1 0 0 (Children.obs ⟨0⟩)
             AndOption.ANYORDER none,
           Group.andG "c2" "c2" 1 0 0 (Children.obs ⟨0⟩)
             AndOption.ANYORDER none])
        AndOption.ANYORDER none)
      (fun id _ => if id = "c1" then [1/2, 0, 9/10] else [1/5, 0, 3/10])
      [0] (fun _ => 3) = .ok [[1/2, 0, 9/10]] ∧
    ([[(1:ℚ)/2, 0, 9/10]].getD 0 []).getD 1 0 =
      (if ∃ c ∈ [Group.andG "c1" "c1" 1 0 0 (Children.obs ⟨0⟩)
             AndOption.ANYORDER none,
           Group.andG "c2" "c2" 1 0 0 (Children.obs ⟨0⟩)
             AndOption.ANYORDER none],
          ((fun id _ =>
            if id = "c1" then [(1:ℚ)/2, 0, 9/10] else [1/5, 0, 3/10])
              c.gid (([0] : List Nat).getD 0 0)).getD 1 0 = 0
      then 0
      else listMax
        ([Group.andG "c1" "c1" 1 0 0 (Children.obs ⟨0⟩)
             AndOption.ANYORDER none,
          Group.andG "c2" "c2" 1 0 0 (Children.obs ⟨0⟩)
             AndOption.ANYORDER none].map fun c =>
          ((fun id _ =>
            if id = "c1" then [(1:ℚ)/2, 0, 9/10] else [1/5, 0, 3/10])
              c.gid (([0] : List Nat).getD 0 0)).getD 1 0)) := by
  have hev : score_and_group {}
      (Group.andG "g" "g" 2 0 0
        (Children.groups
          [Group.andG "c1" "c1" 1 0 0 (Children.obs ⟨0⟩)
             AndOption.ANYORDER none,
           Group.andG "c2" "c2" 1 0 0 (Children.obs ⟨0⟩)
             AndOption.ANYORDER none])
        AndOption.ANYORDER none)
      (fun id _ => if id = "c1" then [1/2, 0, 9/10] else [1/5, 0, 3/10])
      [0] (fun _ => 3) = .ok [[1/2, 0, 9/10]] := by
    simp only [score_and_group, Group.sites, Children.sitesC, Group.sitesL,
      Group.childrenOf, Group.gid, Bind.bind, Option.bind, Finset.union_empty,
      Finset.union_self, Finset.card_singleton, ne_eq, List.range_succ,
      List.range_zero, List.map_cons, List.map_nil, List.nil_append,
      List.cons_append, String.reduceEq, if_true, if_false, ite_true,
      ite_false, List.getD_cons_zero, List.getD_cons_succ,
      _default_score_combiner, listMax, List.mem_cons, List.not_mem_nil]
    norm_num [max_def]
  exact ⟨hev,
    and_group_default_combiner {}
      (Group.andG "g" "g" 2 0 0
        (Children.groups
          [Group.andG "c1" "c1" 1 0 0 (Children.obs ⟨0⟩)
             AndOption.ANYORDER none,
           Group.andG "c2" "c2" 1 0 0 (Children.obs ⟨0⟩)
             AndOption.ANYORDER none])
        AndOption.ANYORDER none)
      (fun id _ => if id = "c1" then [1/2, 0, 9/10] else [1/5, 0, 3/10])
      [0] (fun _ => 3)
      [Group.andG "c1" "c1" 1 0 0 (Children.obs ⟨0⟩)
         AndOption.ANYORDER none,
       Group.andG "c2" "c2" 1 0 0 (Children.obs ⟨0⟩)
         AndOption.ANYORDER none]
      [[1/2, 0, 9/10]] 0 1 rfl rfl hev (by decide) (by decide)⟩

end Scheduler
